import Mathlib

/-!
Verification of the state-sync driver utilities
(`state-sync/state-sync-v2/state-sync-driver/src/utils.rs`).

Rust `u64` versions are modelled as `Nat` together with explicit checked
arithmetic at the `u64` boundary. Fallible Rust functions returning
`Result<T, Error>` are modelled as `Except Error T`; functions taking
`&mut self` are modelled as state-passing functions that return the
updated state alongside the result.
-/

deriving instance DecidableEq for Except

/-- The maximum value representable by a Rust `u64`. -/
def u64Max : Nat := 18446744073709551615

/-- Rust `u64::checked_add`: `some (a + b)` unless the sum exceeds `u64::MAX`. -/
def u64CheckedAdd (a b : Nat) : Option Nat :=
  if a + b ≤ u64Max then some (a + b) else none

/-- Rust `Version` (`aptos_types::transaction::Version`) is a `u64`. -/
abbrev Version := Nat

/-- The `Error` enum of the state-sync driver, restricted to the variants
constructed in `utils.rs` (plus `UnexpectedError` for errors converted from
the streaming client via `error.into()`). Each variant carries the message
string built at its construction site. -/
inductive Error where
  | VerificationError (msg : String)
  | IntegerOverflow (msg : String)
  | CriticalDataStreamTimeout (msg : String)
  | DataStreamNotificationTimeout (msg : String)
  | InvalidPayload (msg : String)
  | StorageError (msg : String)
  | UnexpectedError (msg : String)
  deriving DecidableEq, Repr

/-- Modelled from the spec: a validator verifier, "the trusted validator set
(ordered collection of validator identity → voting power, and the quorum
threshold)" (`aptos-types`, not under `src/`). Validator identities are
modelled as naturals. -/
structure ValidatorVerifier where
  validator_voting_powers : List (Nat × Nat)
  quorum_voting_power : Nat
  deriving DecidableEq, Repr

/-- Modelled from the spec: `EpochState` — the trusted validator set "for a
specific epoch number. Immutable once constructed; replaced wholesale on
epoch change" (`aptos-types`, not under `src/`). -/
structure EpochState where
  epoch : Nat
  verifier : ValidatorVerifier
  deriving DecidableEq, Repr

/-- Modelled from the spec: a ledger-info header — "a cryptographically
summarized checkpoint of chain state at a version", optionally carrying a
next-epoch validator set (`aptos-types`, not under `src/`). -/
structure LedgerInfo where
  version : Version
  next_epoch_state_field : Option EpochState
  deriving DecidableEq, Repr

/-- Accessor mirroring `LedgerInfo::next_epoch_state()`. -/
def LedgerInfo.next_epoch_state (li : LedgerInfo) : Option EpochState :=
  li.next_epoch_state_field

/-- Modelled from the spec: `LedgerInfoWithSignatures` — "a ledger-info
header plus validator signatures proving quorum certification"
(`aptos-types`, not under `src/`). Signatures are modelled as the list of
validator identities that signed. -/
structure LedgerInfoWithSignatures where
  ledger_info_field : LedgerInfo
  signatures : List Nat
  deriving DecidableEq, Repr

/-- Accessor mirroring `LedgerInfoWithSignatures::ledger_info()`. -/
def LedgerInfoWithSignatures.ledger_info (lwi : LedgerInfoWithSignatures) :
    LedgerInfo :=
  lwi.ledger_info_field

/-- The total voting power contributed by a list of signers: each signer in
the validator set contributes its registered voting power, unknown signers
contribute nothing. -/
def ValidatorVerifier.signersVotingPower (v : ValidatorVerifier)
    (signers : List Nat) : Nat :=
  (signers.map (fun s => ((v.validator_voting_powers.lookup s).getD 0))).sum

/-- Modelled from the spec: `EpochState::verify` (the `Verifier` impl in
`aptos-types`, not under `src/`) — "runs quorum-signature verification of
`lwi` against the current `epoch_state`; fails with a verification error if
the signature set does not meet the threshold". Returns `true` iff the
signers' combined voting power meets the epoch's quorum threshold. -/
def EpochState.verify (es : EpochState) (lwi : LedgerInfoWithSignatures) :
    Bool :=
  es.verifier.quorum_voting_power ≤ es.verifier.signersVotingPower lwi.signatures

/-- `SpeculativeStreamState` (utils.rs, lines 38-42): the speculative state
that tracks a data stream of transactions or outputs. -/
structure SpeculativeStreamState where
  epoch_state : EpochState
  proof_ledger_info : Option LedgerInfoWithSignatures
  synced_version : Version
  deriving DecidableEq, Repr

/-- `SpeculativeStreamState::new` (utils.rs, lines 45-55). -/
def SpeculativeStreamState.new (epoch_state : EpochState)
    (proof_ledger_info : Option LedgerInfoWithSignatures)
    (synced_version : Version) : SpeculativeStreamState :=
  { epoch_state := epoch_state
    proof_ledger_info := proof_ledger_info
    synced_version := synced_version }

/-- `SpeculativeStreamState::expected_next_version` (utils.rs, lines 58-62):
`self.synced_version.checked_add(1)`, with `None` mapped to
`Error::IntegerOverflow`. -/
def SpeculativeStreamState.expected_next_version
    (s : SpeculativeStreamState) : Except Error Version :=
  match u64CheckedAdd s.synced_version 1 with
  | some v => .ok v
  | none => .error (.IntegerOverflow "The expected next version has overflown!")

/-- `SpeculativeStreamState::get_proof_ledger_info` (utils.rs, lines 66-71):
returns the proof ledger info, panicking (`none` here) when it is absent. -/
def SpeculativeStreamState.get_proof_ledger_info
    (s : SpeculativeStreamState) : Option LedgerInfoWithSignatures :=
  s.proof_ledger_info

/-- `SpeculativeStreamState::update_synced_version` (utils.rs, lines 74-76):
unconditional overwrite of `synced_version`. -/
def SpeculativeStreamState.update_synced_version
    (s : SpeculativeStreamState) (synced_version : Version) :
    SpeculativeStreamState :=
  { s with synced_version := synced_version }

/-- `SpeculativeStreamState::verify_ledger_info_with_signatures`
(utils.rs, lines 80-93): verifies the ledger info against the current
epoch state; on failure the error is returned and the state is untouched;
on success, if the ledger info carries a `next_epoch_state`, `epoch_state`
is replaced by it. Returns the result together with the (possibly updated)
state, mirroring `&mut self`. -/
def SpeculativeStreamState.verify_ledger_info_with_signatures
    (s : SpeculativeStreamState) (lwi : LedgerInfoWithSignatures) :
    Except Error Unit × SpeculativeStreamState :=
  if s.epoch_state.verify lwi then
    match lwi.ledger_info.next_epoch_state with
    | some epoch_state => (.ok (), { s with epoch_state := epoch_state })
    | none => (.ok (), s)
  else
    (.error (.VerificationError "Ledger info failed verification"), s)

/-- `MAX_NUM_DATA_STREAM_TIMEOUTS` (utils.rs, line 31). -/
def MAX_NUM_DATA_STREAM_TIMEOUTS : Nat := 3

/-- Modelled from the spec: a notification id — "an id (for feedback)"
(`data-streaming-service`, not under `src/`). -/
abbrev NotificationId := Nat

/-- Modelled from the spec: `DataPayload` — "a payload variant, one of:
transaction-with-output batch, transaction-only batch, end-of-stream
marker" (`data-streaming-service`, not under `src/`). Batch contents are
modelled as lists of naturals. -/
inductive DataPayload where
  | EndOfStream
  | TransactionsWithProof (transactions : List Nat)
  | TransactionOutputsWithProof (outputs : List Nat)
  deriving DecidableEq, Repr

/-- Modelled from the spec: `DataNotification` — "an opaque unit from the
streaming service: an id (for feedback) and a payload variant"
(`data-streaming-service`, not under `src/`). -/
structure DataNotification where
  notification_id : NotificationId
  data_payload : DataPayload
  deriving DecidableEq, Repr

/-- Modelled from the spec: `DataStreamListener` — the handle to the active
stream, which "tracks consecutive timeout counts"
(`data-streaming-service`, not under `src/`). -/
structure DataStreamListener where
  num_consecutive_timeouts : Nat
  deriving DecidableEq, Repr

/-- The outcome of the bounded wait on `active_data_stream.select_next_some()`
inside `get_data_notification`: either a notification arrived within the
timeout, or the wait timed out. -/
inductive FetchOutcome where
  | arrived (notification : DataNotification)
  | timedOut
  deriving DecidableEq, Repr

/-- Rust `format!` of a `Duration` built from milliseconds, as used for the
`DataStreamNotificationTimeout` message. -/
def formatDurationMs (ms : Nat) : String :=
  toString ms ++ "ms"

/-- `get_data_notification` (utils.rs, lines 102-131). The async wait is
modelled by the `outcome` input; the `expect` on the missing stream is
modelled as `none`. On arrival the consecutive-timeout counter is reset to
zero; on timeout it is incremented, and the error is critical when the
counter reaches `MAX_NUM_DATA_STREAM_TIMEOUTS` and a recoverable timeout
carrying the wait duration otherwise. -/
def get_data_notification (max_stream_wait_time_ms : Nat)
    (outcome : FetchOutcome) (active_data_stream : Option DataStreamListener) :
    Option (Except Error DataNotification × DataStreamListener) :=
  match active_data_stream with
  | none => none
  | some listener =>
    match outcome with
    | .arrived data_notification =>
      some (.ok data_notification, { listener with num_consecutive_timeouts := 0 })
    | .timedOut =>
      let listener :=
        { listener with
          num_consecutive_timeouts := listener.num_consecutive_timeouts + 1 }
      if MAX_NUM_DATA_STREAM_TIMEOUTS ≤ listener.num_consecutive_timeouts then
        some (.error (.CriticalDataStreamTimeout
          (toString MAX_NUM_DATA_STREAM_TIMEOUTS)), listener)
      else
        some (.error (.DataStreamNotificationTimeout
          (formatDurationMs max_stream_wait_time_ms)), listener)

/-- Runs `get_data_notification` over a sequence of fetch outcomes on one
stream, threading the listener state, and collects the per-fetch results. -/
def runFetches (max_stream_wait_time_ms : Nat) (listener : DataStreamListener) :
    List FetchOutcome → List (Except Error DataNotification)
  | [] => []
  | outcome :: rest =>
    match get_data_notification max_stream_wait_time_ms outcome (some listener) with
    | some (result, listener) =>
      result :: runFetches max_stream_wait_time_ms listener rest
    | none => []

/-- Whether a fetch result is the critical data-stream timeout error. -/
def isCriticalTimeout : Except Error DataNotification → Bool
  | .error (.CriticalDataStreamTimeout _) => true
  | _ => false

/-- Modelled from the spec: `NotificationFeedback` — the closed set of
feedback values sent to the streaming service, restricted to the two
variants constructed in `utils.rs` (`data-streaming-service`, not under
`src/`). -/
inductive NotificationFeedback where
  | EndOfStream
  | PayloadTypeIsIncorrect
  deriving DecidableEq, Repr

/-- Modelled from the spec: the streaming client — its
`terminate_stream_with_feedback` RPC "may itself fail (network/service
error)" (`data-streaming-service`, not under `src/`). The model records
the feedback messages successfully delivered, and a flag saying whether
the RPC fails. -/
structure StreamingClient where
  terminate_fails : Bool
  sent_feedback : List (NotificationId × NotificationFeedback)
  deriving DecidableEq, Repr

/-- `terminate_stream_with_feedback` (utils.rs, lines 134-148): forwards the
notification id and feedback to the streaming client; a client failure is
surfaced to the caller (`error.into()`). -/
def terminate_stream_with_feedback (streaming_client : StreamingClient)
    (notification_id : NotificationId)
    (notification_feedback : NotificationFeedback) :
    Except Error Unit × StreamingClient :=
  if streaming_client.terminate_fails then
    (.error (.UnexpectedError "Failed to terminate the stream"), streaming_client)
  else
    (.ok (), { streaming_client with
               sent_feedback := streaming_client.sent_feedback ++
                 [(notification_id, notification_feedback)] })

/-- `handle_end_of_stream_or_invalid_payload` (utils.rs, lines 152-175):
terminates the stream with `EndOfStream` feedback for the end-of-stream
marker and `PayloadTypeIsIncorrect` for any other payload; after the
feedback is sent, still returns an `InvalidPayload` error for any
non-end-of-stream payload. -/
def handle_end_of_stream_or_invalid_payload (streaming_client : StreamingClient)
    (data_notification : DataNotification) :
    Except Error Unit × StreamingClient :=
  let notification_feedback :=
    match data_notification.data_payload with
    | .EndOfStream => NotificationFeedback.EndOfStream
    | _ => NotificationFeedback.PayloadTypeIsIncorrect
  match terminate_stream_with_feedback streaming_client
      data_notification.notification_id notification_feedback with
  | (.error e, streaming_client) => (.error e, streaming_client)
  | (.ok _, streaming_client) =>
    match data_notification.data_payload with
    | .EndOfStream => (.ok (), streaming_client)
    | _ => (.error (.InvalidPayload "Unexpected payload type!"), streaming_client)

/-- Modelled from the spec: `StartupInfo` (`storage-interface`, not under
`src/`) — the startup record holding the latest epoch state and the latest
ledger info. -/
structure StartupInfo where
  epoch_state : EpochState
  latest_ledger_info : LedgerInfoWithSignatures
  deriving DecidableEq, Repr

/-- Accessor mirroring `StartupInfo::get_epoch_state`. -/
def StartupInfo.get_epoch_state (startup_info : StartupInfo) : EpochState :=
  startup_info.epoch_state

/-- Modelled from the spec: the storage reader (`DbReader`,
`storage-interface`, not under `src/`) — "`get_startup_info()` →
optional startup record; `get_latest_transaction_info()` → optional
(version, info)". Each read is modelled by its result: an `Except` whose
error is the underlying read failure and whose value is the optional
record. Transaction infos are modelled as naturals. -/
structure DbReader where
  startup_info_result : Except String (Option StartupInfo)
  latest_transaction_info_result : Except String (Option (Version × Nat))
  deriving DecidableEq, Repr

/-- `fetch_startup_info` (utils.rs, lines 208-216): a failed read and a
missing record are both mapped to `Error::StorageError`. -/
def fetch_startup_info (storage : DbReader) : Except Error StartupInfo :=
  match storage.startup_info_result with
  | .error e =>
    .error (.StorageError ("Failed to get startup info from storage: " ++ e))
  | .ok none => .error (.StorageError "Missing startup info from storage")
  | .ok (some startup_info) => .ok startup_info

/-- `fetch_latest_epoch_state` (utils.rs, lines 178-181). -/
def fetch_latest_epoch_state (storage : DbReader) : Except Error EpochState :=
  match fetch_startup_info storage with
  | .error e => .error e
  | .ok startup_info => .ok startup_info.get_epoch_state

/-- `fetch_latest_synced_ledger_info` (utils.rs, lines 184-189). -/
def fetch_latest_synced_ledger_info (storage : DbReader) :
    Except Error LedgerInfoWithSignatures :=
  match fetch_startup_info storage with
  | .error e => .error e
  | .ok startup_info => .ok startup_info.latest_ledger_info

/-- `fetch_latest_synced_version` (utils.rs, lines 192-205): reads the
latest-transaction-info record directly (it does not use
`fetch_startup_info`); a failed read and a missing record are both mapped
to `Error::StorageError`. -/
def fetch_latest_synced_version (storage : DbReader) : Except Error Version :=
  match storage.latest_transaction_info_result with
  | .error e =>
    .error (.StorageError
      ("Failed to get the latest transaction info from storage: " ++ e))
  | .ok none => .error (.StorageError "Latest transaction info is missing!")
  | .ok (some (latest_synced_version, _)) => .ok latest_synced_version

/-- `CommittedTransactions` (`notification_handlers.rs`, not under `src/`):
the committed transactions and their emitted events, modelled as lists of
naturals. -/
structure CommittedTransactions where
  events : List Nat
  transactions : List Nat
  deriving DecidableEq, Repr

/-- The data handed to the downstream consumers (mempool and event
subscription service) by a successful commit notification. -/
structure DownstreamNotification where
  events : List Nat
  transactions : List Nat
  latest_synced_version : Version
  latest_synced_ledger_info : LedgerInfoWithSignatures
  deriving DecidableEq, Repr

/-- Modelled from the spec: `CommitNotification::handle_transaction_notification`
(`notification_handlers.rs`, not under `src/`) — notifies the mempool of
committed transactions and the event subscription service of committed
events; the notification "may fail (async) — success/failure". The failure
is modelled by the `downstream_fails` flag. -/
def CommitNotification_handle_transaction_notification
    (downstream_fails : Bool) (events : List Nat) (transactions : List Nat)
    (latest_synced_version : Version)
    (latest_synced_ledger_info : LedgerInfoWithSignatures) :
    Except String DownstreamNotification :=
  if downstream_fails then
    .error "Downstream notification failed"
  else
    .ok { events := events
          transactions := transactions
          latest_synced_version := latest_synced_version
          latest_synced_ledger_info := latest_synced_ledger_info }

/-- The observable outcome of `handle_committed_transactions`: what was
delivered downstream (if anything) and the error logged (if any). The Rust
function returns `()`, so no error is ever propagated to the caller. -/
structure CommitHandlingOutcome where
  delivered : Option DownstreamNotification
  logged_error : Option String
  deriving DecidableEq, Repr

/-- `handle_committed_transactions` (utils.rs, lines 241-282): re-fetches the
latest synced version and ledger info from storage; on any re-fetch
failure, or on a downstream notification failure, logs the error and
returns (nothing is propagated). -/
def handle_committed_transactions
    (committed_transactions : CommittedTransactions) (storage : DbReader)
    (downstream_fails : Bool) : CommitHandlingOutcome :=
  match fetch_latest_synced_version storage with
  | .error _ =>
    { delivered := none
      logged_error := some "Failed to fetch latest synced version!" }
  | .ok latest_synced_version =>
    match fetch_latest_synced_ledger_info storage with
    | .error _ =>
      { delivered := none
        logged_error := some "Failed to fetch latest synced ledger info!" }
    | .ok latest_synced_ledger_info =>
      match CommitNotification_handle_transaction_notification downstream_fails
          committed_transactions.events committed_transactions.transactions
          latest_synced_version latest_synced_ledger_info with
      | .error _ =>
        { delivered := none
          logged_error := some "Failed to handle a transaction commit notification!" }
      | .ok downstream_notification =>
        { delivered := some downstream_notification
          logged_error := none }

/-! Concrete fixtures used by the witnesses below. -/

/-- Three validators of voting power one each, quorum threshold two. -/
def exampleVerifier : ValidatorVerifier :=
  { validator_voting_powers := [(0, 1), (1, 1), (2, 1)]
    quorum_voting_power := 2 }

/-- Epoch 5 with the example verifier. -/
def exampleEpochState : EpochState :=
  { epoch := 5, verifier := exampleVerifier }

/-- Epoch 6 with the example verifier: the next-epoch validator set carried
by `epochChangeLwi`. -/
def exampleNextEpochState : EpochState :=
  { epoch := 6, verifier := exampleVerifier }

/-- A tracker at epoch 5, no proof ledger info, synced version 100. -/
def exampleState : SpeculativeStreamState :=
  SpeculativeStreamState.new exampleEpochState none 100

/-- A ledger info signed by a single validator: below the quorum of two. -/
def underSignedLwi : LedgerInfoWithSignatures :=
  { ledger_info_field := { version := 110, next_epoch_state_field := none }
    signatures := [0] }

/-- A quorum-signed ledger info carrying a next-epoch validator set. -/
def epochChangeLwi : LedgerInfoWithSignatures :=
  { ledger_info_field :=
      { version := 110, next_epoch_state_field := some exampleNextEpochState }
    signatures := [0, 1] }

/-- A quorum-signed ledger info with no epoch change. -/
def plainLwi : LedgerInfoWithSignatures :=
  { ledger_info_field := { version := 110, next_epoch_state_field := none }
    signatures := [0, 1] }

/-! Theorems. -/

/-- C1: for every `SpeculativeStreamState` and every ledger info whose
signature set does not meet the quorum threshold of the current
`epoch_state`, `verify_ledger_info_with_signatures` returns a verification
error and leaves both `epoch_state` and `synced_version` unchanged. -/
theorem verify_quorum_rejection (s : SpeculativeStreamState)
    (lwi : LedgerInfoWithSignatures)
    (h : s.epoch_state.verifier.signersVotingPower lwi.signatures <
      s.epoch_state.verifier.quorum_voting_power) :
    (s.verify_ledger_info_with_signatures lwi).1 =
      .error (.VerificationError "Ledger info failed verification") ∧
    (s.verify_ledger_info_with_signatures lwi).2.epoch_state = s.epoch_state ∧
    (s.verify_ledger_info_with_signatures lwi).2.synced_version =
      s.synced_version := by
  have hv : s.epoch_state.verify lwi = false := by
    simp only [EpochState.verify, decide_eq_false_iff_not]
    omega
  simp [SpeculativeStreamState.verify_ledger_info_with_signatures, hv]

/-- Witness for C1: a ledger info signed by one of three power-one
validators misses the quorum of two and is rejected without state change. -/
theorem verify_quorum_rejection_witness :
    (exampleState.verify_ledger_info_with_signatures underSignedLwi).1 =
      .error (.VerificationError "Ledger info failed verification") ∧
    (exampleState.verify_ledger_info_with_signatures underSignedLwi).2.epoch_state =
      exampleState.epoch_state ∧
    (exampleState.verify_ledger_info_with_signatures underSignedLwi).2.synced_version =
      exampleState.synced_version :=
  verify_quorum_rejection exampleState underSignedLwi (by decide)

/-- C3: for every tracker and every ledger info that passes verification
against the current `epoch_state`, the new `epoch_state` is the carried
next-epoch validator set when present and the old `epoch_state` otherwise;
`update_synced_version`, the only other mutating operation of the tracker,
never changes `epoch_state`. -/
theorem verify_epoch_advancement (s : SpeculativeStreamState)
    (lwi : LedgerInfoWithSignatures) (v : Version)
    (h : s.epoch_state.verify lwi = true) :
    (s.verify_ledger_info_with_signatures lwi).1 = .ok () ∧
    (s.verify_ledger_info_with_signatures lwi).2.epoch_state =
      (lwi.ledger_info.next_epoch_state).getD s.epoch_state ∧
    (s.update_synced_version v).epoch_state = s.epoch_state := by
  cases hn : lwi.ledger_info.next_epoch_state with
  | none =>
    simp [SpeculativeStreamState.verify_ledger_info_with_signatures, h, hn,
      SpeculativeStreamState.update_synced_version]
  | some es =>
    simp [SpeculativeStreamState.verify_ledger_info_with_signatures, h, hn,
      SpeculativeStreamState.update_synced_version]

/-- Witness for C3: a quorum-signed epoch-change ledger info replaces the
epoch state by the carried next-epoch validator set. -/
theorem verify_epoch_advancement_witness :
    (exampleState.verify_ledger_info_with_signatures epochChangeLwi).1 = .ok () ∧
    (exampleState.verify_ledger_info_with_signatures epochChangeLwi).2.epoch_state =
      (epochChangeLwi.ledger_info.next_epoch_state).getD exampleState.epoch_state ∧
    (exampleState.update_synced_version 110).epoch_state =
      exampleState.epoch_state :=
  verify_epoch_advancement exampleState epochChangeLwi 110 (by decide)

/-- C4: verifying the same already-trusted ledger info twice in succession
leaves `epoch_state` after the second call equal to `epoch_state` after the
first call (no double-advance), including when the ledger info carries a
next-epoch validator set. -/
theorem verify_epoch_idempotent (s : SpeculativeStreamState)
    (lwi : LedgerInfoWithSignatures)
    (h : (s.verify_ledger_info_with_signatures lwi).1 = .ok ()) :
    ((s.verify_ledger_info_with_signatures lwi).2.verify_ledger_info_with_signatures
        lwi).2.epoch_state =
      (s.verify_ledger_info_with_signatures lwi).2.epoch_state := by
  have hv : s.epoch_state.verify lwi = true := by
    by_contra hfalse
    rw [Bool.not_eq_true] at hfalse
    simp [SpeculativeStreamState.verify_ledger_info_with_signatures, hfalse] at h
  cases hn : lwi.ledger_info.next_epoch_state with
  | none =>
    simp [SpeculativeStreamState.verify_ledger_info_with_signatures, hv, hn]
  | some es =>
    by_cases hv2 : es.verify lwi = true
    · simp [SpeculativeStreamState.verify_ledger_info_with_signatures, hv, hv2, hn]
    · rw [Bool.not_eq_true] at hv2
      simp [SpeculativeStreamState.verify_ledger_info_with_signatures, hv, hv2, hn]

/-- Witness for C4: replaying a trusted epoch-change ledger info does not
change the epoch state a second time. -/
theorem verify_epoch_idempotent_witness :
    ((exampleState.verify_ledger_info_with_signatures epochChangeLwi).2.verify_ledger_info_with_signatures
        epochChangeLwi).2.epoch_state =
      (exampleState.verify_ledger_info_with_signatures epochChangeLwi).2.epoch_state :=
  verify_epoch_idempotent exampleState epochChangeLwi (by decide)

/-- Counterexample for C5: `update_synced_version` is an unconditional
overwrite, so a call with a smaller version sets `synced_version`
backward — with no re-initialization from storage involved. -/
theorem update_synced_version_sets_backward :
    (exampleState.update_synced_version 0).synced_version <
      exampleState.synced_version := by
  decide

/-- C5 (amended): `synced_version` never decreases across
`update_synced_version` provided the caller respects the documented
discipline `v >= current` (the tracker itself does not enforce it), and
`verify_ledger_info_with_signatures` never changes `synced_version`. -/
theorem synced_version_monotone (s : SpeculativeStreamState) (v : Version)
    (lwi : LedgerInfoWithSignatures) (h : s.synced_version ≤ v) :
    s.synced_version ≤ (s.update_synced_version v).synced_version ∧
    (s.verify_ledger_info_with_signatures lwi).2.synced_version =
      s.synced_version := by
  constructor
  · simpa [SpeculativeStreamState.update_synced_version] using h
  · unfold SpeculativeStreamState.verify_ledger_info_with_signatures
    cases s.epoch_state.verify lwi <;>
      cases lwi.ledger_info.next_epoch_state <;> simp

/-- Witness for C5 (amended): advancing from 100 to 110 does not decrease
the synced version, and verification leaves it untouched. -/
theorem synced_version_monotone_witness :
    exampleState.synced_version ≤
      (exampleState.update_synced_version 110).synced_version ∧
    (exampleState.verify_ledger_info_with_signatures plainLwi).2.synced_version =
      exampleState.synced_version :=
  synced_version_monotone exampleState 110 plainLwi (by decide)

/-- C7: `expected_next_version` returns `synced_version + 1` whenever
`synced_version` is below `u64::MAX`, and fails with the integer-overflow
error (rather than wrapping to zero) when `synced_version` equals
`u64::MAX`. -/
theorem expected_next_version_spec (s : SpeculativeStreamState) :
    (s.synced_version < u64Max →
      s.expected_next_version = .ok (s.synced_version + 1)) ∧
    (s.synced_version = u64Max →
      s.expected_next_version =
        .error (.IntegerOverflow "The expected next version has overflown!")) := by
  constructor
  · intro h
    have hle : s.synced_version + 1 ≤ u64Max := h
    unfold SpeculativeStreamState.expected_next_version u64CheckedAdd
    rw [if_pos hle]
  · intro h
    have hgt : ¬ s.synced_version + 1 ≤ u64Max := by
      rw [h]
      exact Nat.not_succ_le_self u64Max
    unfold SpeculativeStreamState.expected_next_version u64CheckedAdd
    rw [if_neg hgt]

/-- Witness for C7: at version 100 the expected next version is 101, and at
`u64::MAX` the overflow error is returned. -/
theorem expected_next_version_witness :
    exampleState.expected_next_version = .ok 101 ∧
    (SpeculativeStreamState.new exampleEpochState none u64Max).expected_next_version =
      .error (.IntegerOverflow "The expected next version has overflown!") :=
  ⟨(expected_next_version_spec exampleState).1 (by decide),
   (expected_next_version_spec
     (SpeculativeStreamState.new exampleEpochState none u64Max)).2 rfl⟩

/-- C10: `verify_ledger_info_with_signatures` leaves `proof_ledger_info` and
`synced_version` unchanged whether verification succeeds or fails, and
`update_synced_version`, the only other mutating operation, leaves
`proof_ledger_info` unchanged — so `proof_ledger_info` is never modified
after construction. -/
theorem verify_frame_conditions (s : SpeculativeStreamState)
    (lwi : LedgerInfoWithSignatures) (v : Version) :
    (s.verify_ledger_info_with_signatures lwi).2.proof_ledger_info =
      s.proof_ledger_info ∧
    (s.verify_ledger_info_with_signatures lwi).2.synced_version =
      s.synced_version ∧
    (s.update_synced_version v).proof_ledger_info = s.proof_ledger_info := by
  unfold SpeculativeStreamState.verify_ledger_info_with_signatures
    SpeculativeStreamState.update_synced_version
  cases s.epoch_state.verify lwi <;>
    cases lwi.ledger_info.next_epoch_state <;> simp

/-- C2: `get_data_notification` resets the consecutive-timeout counter to
zero on a successful fetch and increments it on a timeout; starting from a
reset counter, the first two consecutive timeouts yield the recoverable
timeout error carrying the wait duration, the third yields the critical
timeout error, and the trace timeout, timeout, success, timeout, timeout
yields no critical error. -/
theorem timeout_escalation (wait : Nat) (l : DataStreamListener)
    (n : DataNotification) :
    get_data_notification wait (.arrived n) (some l) =
      some (.ok n, { l with num_consecutive_timeouts := 0 }) ∧
    (get_data_notification wait .timedOut (some l)).map
        (fun r => r.2.num_consecutive_timeouts) =
      some (l.num_consecutive_timeouts + 1) ∧
    runFetches wait { l with num_consecutive_timeouts := 0 }
        [.timedOut, .timedOut] =
      [.error (.DataStreamNotificationTimeout (formatDurationMs wait)),
       .error (.DataStreamNotificationTimeout (formatDurationMs wait))] ∧
    runFetches wait { l with num_consecutive_timeouts := 0 }
        [.timedOut, .timedOut, .timedOut] =
      [.error (.DataStreamNotificationTimeout (formatDurationMs wait)),
       .error (.DataStreamNotificationTimeout (formatDurationMs wait)),
       .error (.CriticalDataStreamTimeout "3")] ∧
    runFetches wait { l with num_consecutive_timeouts := 0 }
        [.timedOut, .timedOut, .arrived n, .timedOut, .timedOut] =
      [.error (.DataStreamNotificationTimeout (formatDurationMs wait)),
       .error (.DataStreamNotificationTimeout (formatDurationMs wait)),
       .ok n,
       .error (.DataStreamNotificationTimeout (formatDurationMs wait)),
       .error (.DataStreamNotificationTimeout (formatDurationMs wait))] := by
  refine ⟨rfl, ?_, ?_, ?_, ?_⟩
  · by_cases h3 : MAX_NUM_DATA_STREAM_TIMEOUTS ≤ l.num_consecutive_timeouts + 1 <;>
      simp [get_data_notification, h3]
  · simp [runFetches, get_data_notification, MAX_NUM_DATA_STREAM_TIMEOUTS]
  · simp [runFetches, get_data_notification, MAX_NUM_DATA_STREAM_TIMEOUTS]
    rfl
  · simp [runFetches, get_data_notification, MAX_NUM_DATA_STREAM_TIMEOUTS]

/-- A streaming client whose terminate RPC succeeds and which has sent no
feedback yet. -/
def exampleClient : StreamingClient :=
  { terminate_fails := false, sent_feedback := [] }

/-- An end-of-stream notification. -/
def endNotification : DataNotification :=
  { notification_id := 7, data_payload := .EndOfStream }

/-- A notification carrying a transaction batch (not end-of-stream). -/
def badNotification : DataNotification :=
  { notification_id := 8, data_payload := .TransactionsWithProof [1] }

/-- C6: when the terminate RPC succeeds,
`handle_end_of_stream_or_invalid_payload` sends `EndOfStream` feedback and
returns success for the end-of-stream marker, and for every other payload
variant it sends `PayloadTypeIsIncorrect` feedback and still returns the
invalid-payload error — both the feedback send and the error return
happen. -/
theorem end_of_stream_feedback_and_error (c : StreamingClient)
    (n : DataNotification) (h : c.terminate_fails = false) :
    (n.data_payload = .EndOfStream →
      handle_end_of_stream_or_invalid_payload c n =
        (.ok (), { c with sent_feedback :=
          c.sent_feedback ++ [(n.notification_id, .EndOfStream)] })) ∧
    (n.data_payload ≠ .EndOfStream →
      handle_end_of_stream_or_invalid_payload c n =
        (.error (.InvalidPayload "Unexpected payload type!"),
         { c with sent_feedback :=
           c.sent_feedback ++ [(n.notification_id, .PayloadTypeIsIncorrect)] })) := by
  cases hp : n.data_payload <;>
    simp [handle_end_of_stream_or_invalid_payload,
      terminate_stream_with_feedback, h, hp]

/-- Witness for C6: on a fresh client, the end-of-stream marker yields
success with one `EndOfStream` feedback, and a transaction payload yields
the invalid-payload error with one `PayloadTypeIsIncorrect` feedback. -/
theorem end_of_stream_feedback_and_error_witness :
    handle_end_of_stream_or_invalid_payload exampleClient endNotification =
      (.ok (), { exampleClient with sent_feedback :=
        exampleClient.sent_feedback ++ [(endNotification.notification_id, .EndOfStream)] }) ∧
    handle_end_of_stream_or_invalid_payload exampleClient badNotification =
      (.error (.InvalidPayload "Unexpected payload type!"),
       { exampleClient with sent_feedback :=
         exampleClient.sent_feedback ++
           [(badNotification.notification_id, .PayloadTypeIsIncorrect)] }) :=
  ⟨(end_of_stream_feedback_and_error exampleClient endNotification rfl).1 rfl,
   (end_of_stream_feedback_and_error exampleClient badNotification rfl).2 (by decide)⟩

/-- A storage whose startup record is absent but whose latest-transaction-info
record is present at version 42. -/
def storageNoStartup : DbReader :=
  { startup_info_result := .ok none
    latest_transaction_info_result := .ok (some (42, 0)) }

/-- Counterexample for C8: `fetch_latest_synced_version` does not resolve
through the startup-info lookup — on a storage whose startup record is
absent (so the shared lookup fails) it still succeeds, returning the
version from the latest-transaction-info record. -/
theorem fetch_latest_synced_version_skips_startup_lookup :
    fetch_startup_info storageNoStartup =
      .error (.StorageError "Missing startup info from storage") ∧
    fetch_latest_synced_version storageNoStartup = .ok 42 :=
  ⟨rfl, rfl⟩

/-- C8 (amended): `fetch_latest_epoch_state` and
`fetch_latest_synced_ledger_info` resolve through the shared startup-info
lookup and fail with a storage error whenever the startup record is absent
or the underlying read fails; `fetch_latest_synced_version` instead reads
the latest-transaction-info record directly and fails with a storage error
whenever that read fails or the record is missing, independently of the
startup info. -/
theorem fetch_error_paths (e f : String)
    (r : Except String (Option (Version × Nat)))
    (q : Except String (Option StartupInfo)) :
    fetch_latest_epoch_state
        { startup_info_result := .error e, latest_transaction_info_result := r } =
      .error (.StorageError ("Failed to get startup info from storage: " ++ e)) ∧
    fetch_latest_synced_ledger_info
        { startup_info_result := .error e, latest_transaction_info_result := r } =
      .error (.StorageError ("Failed to get startup info from storage: " ++ e)) ∧
    fetch_latest_epoch_state
        { startup_info_result := .ok none, latest_transaction_info_result := r } =
      .error (.StorageError "Missing startup info from storage") ∧
    fetch_latest_synced_ledger_info
        { startup_info_result := .ok none, latest_transaction_info_result := r } =
      .error (.StorageError "Missing startup info from storage") ∧
    fetch_latest_synced_version
        { startup_info_result := q, latest_transaction_info_result := .error f } =
      .error (.StorageError
        ("Failed to get the latest transaction info from storage: " ++ f)) ∧
    fetch_latest_synced_version
        { startup_info_result := q, latest_transaction_info_result := .ok none } =
      .error (.StorageError "Latest transaction info is missing!") :=
  ⟨rfl, rfl, rfl, rfl, rfl, rfl⟩

/-- A storage with both records present: version 100, ledger info `plainLwi`. -/
def storageHealthy : DbReader :=
  { startup_info_result :=
      .ok (some { epoch_state := exampleEpochState, latest_ledger_info := plainLwi })
    latest_transaction_info_result := .ok (some (100, 0)) }

/-- A storage with startup info present but the latest-transaction-info
record missing. -/
def storageMissingTxnInfo : DbReader :=
  { startup_info_result :=
      .ok (some { epoch_state := exampleEpochState, latest_ledger_info := plainLwi })
    latest_transaction_info_result := .ok none }

/-- The committed transactions handed to the commit notifier in witnesses. -/
def exampleCommitted : CommittedTransactions :=
  { events := [1, 2], transactions := [3] }

/-- C9: `handle_committed_transactions` notifies downstream with exactly the
version and ledger info re-read from storage (the caller supplies neither),
and it always returns an outcome instead of propagating an error: a failed
version re-fetch, a failed ledger-info re-fetch, or a failed downstream
notification each abandon the step with only a logged error. -/
theorem handle_committed_transactions_spec
    (committed : CommittedTransactions) (storage storageA storageB : DbReader)
    (downstream_fails : Bool) (v w : Version)
    (li : LedgerInfoWithSignatures) (errA errB : Error)
    (hv : fetch_latest_synced_version storage = .ok v)
    (hli : fetch_latest_synced_ledger_info storage = .ok li)
    (hA : fetch_latest_synced_version storageA = .error errA)
    (hB1 : fetch_latest_synced_version storageB = .ok w)
    (hB2 : fetch_latest_synced_ledger_info storageB = .error errB) :
    (downstream_fails = false →
      handle_committed_transactions committed storage downstream_fails =
        { delivered := some { events := committed.events
                              transactions := committed.transactions
                              latest_synced_version := v
                              latest_synced_ledger_info := li }
          logged_error := none }) ∧
    (downstream_fails = true →
      handle_committed_transactions committed storage downstream_fails =
        { delivered := none
          logged_error :=
            some "Failed to handle a transaction commit notification!" }) ∧
    handle_committed_transactions committed storageA downstream_fails =
      { delivered := none
        logged_error := some "Failed to fetch latest synced version!" } ∧
    handle_committed_transactions committed storageB downstream_fails =
      { delivered := none
        logged_error := some "Failed to fetch latest synced ledger info!" } := by
  refine ⟨?_, ?_, ?_, ?_⟩
  · intro hd
    simp [handle_committed_transactions, hv, hli,
      CommitNotification_handle_transaction_notification, hd]
  · intro hd
    simp [handle_committed_transactions, hv, hli,
      CommitNotification_handle_transaction_notification, hd]
  · simp [handle_committed_transactions, hA]
  · simp [handle_committed_transactions, hB1, hB2]

/-- Witness for C9: on a healthy storage the downstream notification carries
the storage's version 100 and ledger info; a missing transaction-info
record and a missing startup record each yield only a logged error. -/
theorem handle_committed_transactions_witness :
    (false = false →
      handle_committed_transactions exampleCommitted storageHealthy false =
        { delivered := some { events := exampleCommitted.events
                              transactions := exampleCommitted.transactions
                              latest_synced_version := 100
                              latest_synced_ledger_info := plainLwi }
          logged_error := none }) ∧
    (false = true →
      handle_committed_transactions exampleCommitted storageHealthy false =
        { delivered := none
          logged_error :=
            some "Failed to handle a transaction commit notification!" }) ∧
    handle_committed_transactions exampleCommitted storageMissingTxnInfo false =
      { delivered := none
        logged_error := some "Failed to fetch latest synced version!" } ∧
    handle_committed_transactions exampleCommitted storageNoStartup false =
      { delivered := none
        logged_error := some "Failed to fetch latest synced ledger info!" } :=
  handle_committed_transactions_spec exampleCommitted storageHealthy
    storageMissingTxnInfo storageNoStartup false 100 42 plainLwi
    (.StorageError "Latest transaction info is missing!")
    (.StorageError "Missing startup info from storage")
    rfl rfl rfl rfl rfl
